import Mathlib

set_option maxRecDepth 10000

/-!
Verification of the SafeCheck risk-scoring engine (`src/server/routes.ts`)
against its natural-language specification.

The engine is shallowly embedded: every scoring function of the source is
translated into a total computable Lean function over an explicit payload
model.  JavaScript's optional chaining is modelled with `Option`; a nested
payload object that is absent behaves, under the source's optional-chained
accesses, exactly like a present object whose fields are all absent, so
nested objects are stored directly with all-optional fields.  The field
`is_smtp_valid` is special: the source distinguishes an explicit `null`
from an absent field (`=== null`), so it is modelled with two `Option`
layers.  Likewise `email_quality.score` distinguishes `undefined` from
`null` (`!== undefined` alone guards one comparison), so it also carries
two layers.  JavaScript numbers that the engine treats as integers are
modelled by `Int`/`Nat`; the 0–1 quality score is modelled by `Rat`.
-/

namespace SafeCheck

/-- Severity tag of a risk factor (`type` field in the source). -/
inductive Severity where
  | info
  | warning
  | danger
deriving DecidableEq, Repr, BEq

/-- A risk factor as produced by `detectRiskFactors`. -/
structure RiskFactor where
  type : Severity
  label : String
  description : String
deriving DecidableEq, Repr, BEq

/-- Model of `data.email_deliverability` — all fields optional.
`is_smtp_valid`: `none` = field absent/undefined, `some none` = explicit
JSON `null`, `some (some b)` = boolean `b`.  The distinction matters only
for `is_smtp_valid` because the route handler tests `=== null` on it. -/
structure Deliverability where
  is_format_valid : Option Bool
  is_mx_valid : Option Bool
  is_smtp_valid : Option (Option Bool)
  status : Option String
deriving DecidableEq, Repr

/-- Model of `data.email_quality`.  `score`: `none` = undefined, `some none` =
explicit `null`, `some (some q)` = the number `q`.  The source's high-risk
reason check uses `score !== undefined && score < 0.3`, and in JavaScript
`null < 0.3` is true (null coerces to 0), so `some none` passes that
check while failing the override check `!== undefined && !== null`. -/
structure Quality where
  score : Option (Option Rat)
  is_disposable : Option Bool
  is_role : Option Bool
  is_catchall : Option Bool
  is_free_email : Option Bool
  is_username_suspicious : Option Bool
  is_spf_strict : Option Bool
  is_dmarc_enforced : Option Bool
deriving DecidableEq, Repr

/-- Model of `data.email_risk`. -/
structure Risk where
  address_risk_status : Option String
  domain_risk_status : Option String
deriving DecidableEq, Repr

/-- One entry of `data.email_breaches.breached_domains`. -/
structure Breach where
  domain : Option String
  breach_date : Option String
deriving DecidableEq, Repr

/-- Model of `data.email_breaches`. -/
structure Breaches where
  total_breaches : Option Nat
  breached_domains : Option (List Breach)
deriving DecidableEq, Repr

/-- Model of `data.email_domain`. -/
structure DomainInfo where
  domain_age : Option Nat
deriving DecidableEq, Repr

/-- Model of `data.email_sender`. -/
structure Sender where
  email_provider_name : Option String
deriving DecidableEq, Repr

/-- The reputation payload `data` as accessed by the scoring engine. -/
structure Payload where
  email_address : Option String
  email_deliverability : Deliverability
  email_quality : Quality
  email_risk : Risk
  email_breaches : Breaches
  email_domain : DomainInfo
  email_sender : Sender
deriving DecidableEq, Repr

/-- A payload in which every field is absent. -/
def emptyPayload : Payload :=
  ⟨none, ⟨none, none, none, none⟩, ⟨none, none, none, none, none, none, none, none⟩,
   ⟨none, none⟩, ⟨none, none⟩, ⟨none⟩, ⟨none⟩⟩

/-- JavaScript string interpolation of a possibly-undefined value:
`${undefined}` renders as "undefined". -/
def optStr : Option String → String
  | some s => s
  | none => "undefined"

/-- JavaScript `String.prototype.includes`: substring containment. -/
def strContains (s sub : String) : Bool :=
  (List.range (s.data.length + 1)).any fun i => sub.data.isPrefixOf (s.data.drop i)

/-- JavaScript `String.prototype.split` with a one-character separator,
on the underlying character list: every occurrence of the separator
starts a new piece, and the result is never empty (`"".split(sep)` is
`[""]`). -/
def splitChar (sep : Char) : List Char → List (List Char)
  | [] => [[]]
  | c :: cs =>
    match splitChar sep cs with
    | [] => [[]]
    | h :: t => if c = sep then [] :: h :: t else (c :: h) :: t

/-- JavaScript `s.split(sep)` for a one-character separator (both split
calls of the source use `'@'` or `'.'`). -/
def jsSplit (s : String) (sep : Char) : List String :=
  (splitChar sep s.data).map String.mk

/-- JavaScript `String.prototype.toLowerCase` restricted to ASCII case
mapping, which covers the engine's constant tables and comparisons. -/
def asciiLower (s : String) : String := String.mk (s.data.map Char.toLower)

/-- JavaScript `String.prototype.startsWith` / an anchored `^word` regex
test. -/
def strStarts (s pre : String) : Bool := pre.data.isPrefixOf s.data

/-- The `MAJOR_EMAIL_PROVIDERS` constant of the source. -/
def MAJOR_EMAIL_PROVIDERS : List String :=
  ["gmail.com", "googlemail.com",
   "yahoo.com", "yahoo.co.uk", "yahoo.fr", "yahoo.de", "yahoo.es", "yahoo.it",
   "outlook.com", "hotmail.com", "live.com", "msn.com",
   "icloud.com", "me.com", "mac.com",
   "aol.com",
   "protonmail.com", "proton.me",
   "zoho.com",
   "mail.com",
   "gmx.com", "gmx.net",
   "yandex.com", "yandex.ru"]

/-- The `SUSPICIOUS_DOMAIN_WORDS` constant of the source. -/
def SUSPICIOUS_DOMAIN_WORDS : List String :=
  ["fake", "temp", "trash", "spam", "disposable", "throwaway",
   "mailinator", "guerrilla", "sharklasers", "trashmail", "tempmail",
   "yopmail", "getairmail", "fakeinbox", "burner", "anonymous"]

/-- Model of `SUSPICIOUS_USERNAME_PATTERNS`: each regex is an anchored literal test.
All patterns are of the form `^word` with the `i` flag (case-insensitive
starts-with) except `^user\d+` (a digit must follow "user") and `^12345`
(case-sensitive, vacuously so on digits).  The source only uses whether
some pattern matches, never which one. -/
def usernameSuspicious (u : String) : Bool :=
  let l := asciiLower u
  strStarts l "test" ||
  (strStarts l "user" && (match l.data.drop 4 with
    | c :: _ => c.isDigit
    | [] => false)) ||
  strStarts l "admin" ||
  strStarts l "demo" ||
  strStarts l "sample" ||
  strStarts l "fake" ||
  strStarts l "temp" ||
  strStarts l "null" ||
  strStarts l "example" ||
  strStarts l "noreply" ||
  strStarts l "asdf" ||
  strStarts l "qwerty" ||
  strStarts u "12345" ||
  strStarts l "abc123"

/-- Source line `const email = data.email_address || ''` (an absent or empty address
both yield `''`). -/
def emailOf (p : Payload) : String := p.email_address.getD ""

/-- Source line `const [username, domain] = email.split('@')`: the username part. -/
def usernameOf (p : Payload) : String := (jsSplit (emailOf p) '@').headD ""

/-- Source line `const [username, domain] = email.split('@')`: the domain part, which
is `undefined` when the address has no `@`. -/
def domainOf (p : Payload) : Option String := (jsSplit (emailOf p) '@')[1]?

/-- Source expression `domain?.split('.')[0]?.toLowerCase() || ''`. -/
def domainNameOf (p : Payload) : String :=
  match domainOf p with
  | none => ""
  | some d => asciiLower ((jsSplit d '.').headD "")

/-- JavaScript truthiness-based `||` on an optional string: a present but
empty string is falsy. -/
def jsOrStr (a : Option String) (b : Option String) : Option String :=
  match a with
  | some s => if s = "" then b else some s
  | none => b

/-- High-risk sub-reason check `data.email_quality?.score !== undefined &&
data.email_quality.score < 0.3`.  An explicit `null` passes (JavaScript
coerces `null` to `0`). -/
def qualityScoreLow (q : Option (Option Rat)) : Bool :=
  match q with
  | none => false
  | some none => true
  | some (some x) => x < 3/10

/-- Rule: suspicious domain word (danger, "Suspicious Domain"). -/
def suspiciousDomainFactors (p : Payload) : List RiskFactor :=
  match SUSPICIOUS_DOMAIN_WORDS.find? (fun w => strContains (domainNameOf p) w) with
  | some word =>
      [⟨.danger, "Suspicious Domain",
        "The domain \"" ++ optStr (domainOf p) ++ "\" contains \"" ++ word ++
        "\" which is commonly associated with temporary or fake email services. These domains are often used to create throwaway accounts."⟩]
  | none => []

/-- Rule: suspicious username pattern (info, "Uncommon Username"); only
runs when the username is truthy (non-empty). -/
def uncommonUsernameFactors (p : Payload) : List RiskFactor :=
  if usernameOf p ≠ "" ∧ usernameSuspicious (usernameOf p) then
    [⟨.info, "Uncommon Username",
      "The username \"" ++ usernameOf p ++
      "\" matches a pattern sometimes used for test accounts. This is noted for awareness but doesn't affect the trust score since many real users create custom usernames."⟩]
  else []

/-- Rule: API-flagged username (info, "Unusual Username"). -/
def unusualUsernameFactors (p : Payload) : List RiskFactor :=
  if p.email_quality.is_username_suspicious = some true then
    [⟨.info, "Unusual Username",
      "The username \"" ++ usernameOf p ++
      "\" has an unusual pattern. This is noted for awareness but doesn't affect the trust score since users can create any username they want."⟩]
  else []

/-- Rule: high risk address (danger, "High Risk Address") with composed
sub-reasons. -/
def highRiskFactors (p : Payload) : List RiskFactor :=
  if p.email_risk.address_risk_status = some "high" then
    let reasons : List String :=
      (if qualityScoreLow p.email_quality.score then
        ["very low quality score from reputation analysis"] else []) ++
      (if p.email_deliverability.status = some "unknown" then
        ["email deliverability could not be confirmed"] else []) ++
      (if p.email_quality.is_catchall = some true then
        ["domain accepts all emails (catch-all), making it impossible to verify if this specific address exists"] else []) ++
      (if p.email_quality.is_free_email = some true ∧ p.email_risk.domain_risk_status = some "low" then
        ["combination of unverifiable address on a free email provider"] else [])
    let reasonText :=
      if reasons.length > 0 then
        "Reasons: " ++ String.intercalate "; " reasons ++ "."
      else
        "The email reputation service detected patterns associated with spam, fraud, or abuse based on historical data and behavioral analysis."
    [⟨.danger, "High Risk Address",
      "This email has been classified as high risk by reputation analysis. " ++ reasonText⟩]
  else []

/-- Source line `const breachCount = data.email_breaches?.total_breaches ?? 0`. -/
def breachCountOf (p : Payload) : Nat := p.email_breaches.total_breaches.getD 0

/-- The factor produced by the data-breach rule for breach count
`breachCount` (the source's `severity` let-binding is inlined into the
description). -/
def breachFactorFor (breachCount : Nat) : RiskFactor :=
  ⟨if breachCount > 10 then .danger else .warning, "Data Breaches",
   "This email was found in " ++ toString breachCount ++ " known data breach" ++
   (if breachCount > 1 then "es" else "") ++ ", indicating " ++
   (if breachCount > 10 then "significant exposure"
    else if breachCount > 5 then "moderate exposure"
    else "some exposure") ++
   ". Breached emails are often targeted for spam, phishing, and credential stuffing attacks."⟩

/-- Rule: data breaches (warning if ≤10, danger if >10, "Data Breaches"). -/
def breachFactors (p : Payload) : List RiskFactor :=
  if breachCountOf p > 0 then [breachFactorFor (breachCountOf p)] else []

/-- Rule: disposable email (danger, "Disposable Email"). -/
def disposableFactors (p : Payload) : List RiskFactor :=
  if p.email_quality.is_disposable = some true then
    [⟨.danger, "Disposable Email",
      "This email uses a temporary/disposable email service (" ++ optStr (domainOf p) ++
      "). These addresses self-destruct after a short time and are commonly used to bypass verification, hide identity, or commit fraud."⟩]
  else []

/-- Rule: role-based email (warning, "Role-Based Email"). -/
def roleFactors (p : Payload) : List RiskFactor :=
  if p.email_quality.is_role = some true then
    [⟨.warning, "Role-Based Email",
      "This appears to be a role-based email (like info@, support@, sales@) rather than a personal address. Role emails are shared by multiple people and may have higher bounce rates."⟩]
  else []

/-- Rule: catch-all domain (warning, "Catch-All Domain"), suppressed for
high-risk addresses. -/
def catchAllFactors (p : Payload) : List RiskFactor :=
  if p.email_quality.is_catchall = some true ∧ p.email_risk.address_risk_status ≠ some "high" then
    [⟨.warning, "Catch-All Domain",
      "The domain " ++ optStr (domainOf p) ++
      " is configured to accept all emails, even to non-existent addresses. This means we cannot verify if \"" ++
      usernameOf p ++ "\" is a real mailbox."⟩]
  else []

/-- Rule: free email provider (info, "Free Email Provider");
`const providerName = data.email_sender?.email_provider_name || domain`. -/
def freeEmailFactors (p : Payload) : List RiskFactor :=
  if p.email_quality.is_free_email = some true then
    let providerName := jsOrStr p.email_sender.email_provider_name (domainOf p)
    [⟨.info, "Free Email Provider",
      "This email uses " ++ optStr providerName ++
      ", a free email service. Free providers are less verifiable than business domains, which may slightly reduce the trust score."⟩]
  else []

/-- Rule: SPF not strict while DMARC enforced (info, "SPF Not Strict"). -/
def spfFactors (p : Payload) : List RiskFactor :=
  if p.email_quality.is_spf_strict = some false ∧ p.email_quality.is_dmarc_enforced = some true then
    [⟨.info, "SPF Not Strict",
      "The domain's SPF (Sender Policy Framework) is configured but not in strict mode. This is common for large email providers and has minimal impact on trust."⟩]
  else []

/-- The (constant) factor produced by the medium-risk rule. -/
def mediumRiskFactor : RiskFactor :=
  ⟨.info, "Medium Risk Classification",
   "This email has been classified as medium risk by reputation analysis. This could be due to limited email history, uncommon patterns, or other neutral factors."⟩

/-- Rule: medium risk address (info, "Medium Risk Classification").  In the
source this check runs last, after the SPF check. -/
def mediumRiskFactors (p : Payload) : List RiskFactor :=
  if p.email_risk.address_risk_status = some "medium" then [mediumRiskFactor] else []

/-- Translation of `detectRiskFactors`: the factors array is built by pushing, in source
order, the outcome of each rule. -/
def detectRiskFactors (p : Payload) : List RiskFactor :=
  suspiciousDomainFactors p ++ uncommonUsernameFactors p ++ unusualUsernameFactors p ++
  highRiskFactors p ++ breachFactors p ++ disposableFactors p ++ roleFactors p ++
  catchAllFactors p ++ freeEmailFactors p ++ spfFactors p ++ mediumRiskFactors p

/-- JavaScript `Math.round` on the exact rational value: round half toward
positive infinity, `round(x) = floor(x + 0.5)`. -/
def jsRound (q : Rat) : Int := ⌊q + 1/2⌋

/-- Per-factor penalty applied by the loop at the end of `calculateScore`:
danger factors cost 50 when labelled "Suspicious Domain" and 30 otherwise,
warning factors cost 15, info factors cost nothing. -/
def factorPenalty (f : RiskFactor) : Int :=
  match f.type with
  | .danger => if f.label = "Suspicious Domain" then 50 else 30
  | .warning => 15
  | .info => 0

/-- Body of `calculateScore` before the final clamp, translated
statement-by-statement.  The quality override `qualityScore !== undefined
&& qualityScore !== null` corresponds to `score = some (some q)`;
`parseFloat` of a JSON number is the number itself. -/
def rawScore (data : Payload) (riskFactors : List RiskFactor) (smtpUnverifiable : Bool) : Int :=
  let score : Int :=
    match data.email_quality.score with
    | some (some q) => jsRound (q * 100)
    | _ =>
      let score : Int := 50
      let score := if data.email_deliverability.is_format_valid = some true then score + 15 else score
      let score := if data.email_deliverability.is_mx_valid = some true then score + 15 else score
      let score := if data.email_deliverability.is_smtp_valid = some (some true) then score + 15 else score
      if smtpUnverifiable then score + 10 else score
  let score := if data.email_deliverability.is_smtp_valid = some (some false) then score - 25 else score
  let score := if data.email_deliverability.is_mx_valid = some false then score - 30 else score
  let score := if data.email_deliverability.status = some "undeliverable" then score - 20 else score
  let score := if data.email_deliverability.status = some "unknown" then score - 15 else score
  let score := if data.email_quality.is_catchall = some true then score - 10 else score
  let score := if data.email_quality.is_role = some true then score - 5 else score
  let score := if data.email_risk.address_risk_status = some "medium" then score - 10 else score
  let score := if data.email_risk.address_risk_status = some "high" then score - 20 else score
  riskFactors.foldl (fun s f => s - factorPenalty f) score

/-- Translation of `calculateScore`: the accumulated value clamped by
`Math.min(100, Math.max(0, score))`. -/
def calculateScore (data : Payload) (riskFactors : List RiskFactor) (smtpUnverifiable : Bool) : Int :=
  min 100 (max 0 (rawScore data riskFactors smtpUnverifiable))

/-- The tri-state verification status. -/
inductive Status where
  | safe
  | risky
  | invalid
deriving DecidableEq, Repr, BEq

/-- Translation of `determineStatus`. -/
def determineStatus (score : Int) (data : Payload) (riskFactors : List RiskFactor) : Status :=
  if data.email_deliverability.status = some "undeliverable" then .invalid
  else
    let warningsAndDangers := riskFactors.filter fun f => f.type == .warning || f.type == .danger
    if riskFactors.any (fun f => f.type == .danger) then .risky
    else if warningsAndDangers.length > 1 then .risky
    else if score ≥ 70 then .safe
    else if score ≥ 40 then .risky
    else .invalid

/-- The risk level. -/
inductive RiskLevel where
  | low
  | medium
  | high
deriving DecidableEq, Repr, BEq

/-- Translation of `determineRiskLevel`. -/
def determineRiskLevel (score : Int) : RiskLevel :=
  if score ≥ 70 then .low
  else if score ≥ 40 then .medium
  else .high

/-- The trailing fallback of `estimateDomainAge`, reached when
`domain_age` is absent or falsy (JavaScript: `0` is falsy). -/
def domainAgeFallback (data : Payload) : String :=
  if data.email_quality.is_free_email = some true then "> 10 years"
  else if data.email_quality.is_disposable = some true then "< 1 month"
  else "Unknown"

/-- Translation of `estimateDomainAge`.  `if (domainAgeDays)` is a truthiness test, so an
explicit age of `0` days falls through to the fallback.  `Math.floor` of a
nonnegative division is `Nat` division. -/
def estimateDomainAge (data : Payload) : String :=
  match data.email_domain.domain_age with
  | some d =>
    if d ≠ 0 then
      let years := d / 365
      if years ≥ 10 then "> 10 years"
      else if years ≥ 5 then "5-10 years"
      else if years ≥ 2 then "2-5 years"
      else if years ≥ 1 then "1-2 years"
      else "< 1 year"
    else domainAgeFallback data
  | none => domainAgeFallback data

/-- The route handler's computation
`const smtpUnverifiable = data.email_deliverability?.is_smtp_valid === null && isMajorProvider`
with `email_domain = email.split('@')[1]?.toLowerCase() || ''`.  The
`=== null` test is true only for an explicit null, never for an absent
field. -/
def smtpUnverifiableOf (email : String) (data : Payload) : Bool :=
  let email_domain := asciiLower (((jsSplit email '@')[1]?).getD "")
  data.email_deliverability.is_smtp_valid == some none && MAJOR_EMAIL_PROVIDERS.contains email_domain

/-- One entry of the `breaches` array in the route handler's response. -/
structure BreachOut where
  domain : Option String
  date : Option String
deriving DecidableEq, Repr

/-- The fully-populated verification result assembled by the route handler
(`result` object; `details` fields inlined; the `details.syntax` field is
named `syntaxValid` here because `syntax` is reserved in Lean). -/
structure VerificationResult where
  score : Int
  status : Status
  syntaxValid : Bool
  mxRecords : Bool
  disposable : Bool
  smtpValid : Bool
  smtpUnverifiable : Bool
  spamTrap : Bool
  domainAge : String
  riskLevel : RiskLevel
  riskFactors : List RiskFactor
  breaches : List BreachOut
  providerName : Option String
deriving DecidableEq, Repr

/-- Source expression `data.email_breaches?.breached_domains?.map(b => ({domain: b.domain,
date: b.breach_date})) || []`. -/
def breachesOut (data : Payload) : List BreachOut :=
  (data.email_breaches.breached_domains.getD []).map fun b => ⟨b.domain, b.breach_date⟩

/-- Source expression `data.email_sender?.email_provider_name || null` (empty string is
falsy, hence null). -/
def providerNameOut (data : Payload) : Option String :=
  match data.email_sender.email_provider_name with
  | some s => if s = "" then none else some s
  | none => none

/-- The scoring pipeline of the route handler: risk factors, score, status,
risk level, details and response assembly, for a request `email` and a
parsed payload `data`.  Every step is a total function. -/
def buildResult (email : String) (data : Payload) : VerificationResult :=
  let smtpUnverifiable := smtpUnverifiableOf email data
  let riskFactors := detectRiskFactors data
  let score := calculateScore data riskFactors smtpUnverifiable
  let status := determineStatus score data riskFactors
  let riskLevel := determineRiskLevel score
  { score := score
    status := status
    syntaxValid := data.email_deliverability.is_format_valid == some true
    mxRecords := data.email_deliverability.is_mx_valid == some true
    disposable := data.email_quality.is_disposable == some true
    smtpValid := data.email_deliverability.is_smtp_valid == some (some true)
    smtpUnverifiable := smtpUnverifiable
    spamTrap := data.email_quality.is_catchall == some true
    domainAge := estimateDomainAge data
    riskLevel := riskLevel
    riskFactors := riskFactors
    breaches := breachesOut data
    providerName := providerNameOut data }

/-- Per-factor penalty as worded by spec §4.2: "danger factors subtract 50
if the label is "Suspicious Domain", else 30; warning factors subtract 15.
Info factors subtract nothing."  Stated separately from `factorPenalty`
so the reference definition is self-contained. -/
def specFactorPenalty (f : RiskFactor) : Int :=
  match f.type with
  | .danger => if f.label = "Suspicious Domain" then 50 else 30
  | .warning => 15
  | .info => 0

/-- The §4.2 reference definition of the score, following the spec's words:
base 50, overridden to `round(quality*100)` when an explicit quality score
is carried, else +15 for each explicitly-true validity flag and +10 for the
major-provider SMTP-unverifiable condition; then the eight additive
penalties regardless of the override, plus the per-factor penalties; the
result clamped to [0,100]. -/
def specCalculateScore (data : Payload) (riskFactors : List RiskFactor) (smtpUnverifiable : Bool) : Int :=
  let base : Int :=
    match data.email_quality.score with
    | some (some q) => jsRound (q * 100)
    | _ =>
      50 + (if data.email_deliverability.is_format_valid = some true then 15 else 0)
         + (if data.email_deliverability.is_mx_valid = some true then 15 else 0)
         + (if data.email_deliverability.is_smtp_valid = some (some true) then 15 else 0)
         + (if smtpUnverifiable then 10 else 0)
  let penalties : Int :=
    (if data.email_deliverability.is_smtp_valid = some (some false) then 25 else 0)
    + (if data.email_deliverability.is_mx_valid = some false then 30 else 0)
    + (if data.email_deliverability.status = some "undeliverable" then 20 else 0)
    + (if data.email_deliverability.status = some "unknown" then 15 else 0)
    + (if data.email_quality.is_catchall = some true then 10 else 0)
    + (if data.email_quality.is_role = some true then 5 else 0)
    + (if data.email_risk.address_risk_status = some "medium" then 10 else 0)
    + (if data.email_risk.address_risk_status = some "high" then 20 else 0)
  let perFactor : Int := (riskFactors.map specFactorPenalty).sum
  min 100 (max 0 (base - penalties - perFactor))

/-- Numeric rank of a risk level, used to express monotonicity: a higher
score must never yield a higher-ranked (worse) level. -/
def levelRank : RiskLevel → Nat
  | .low => 0
  | .medium => 1
  | .high => 2

/-- Payload whose deliverability status is "undeliverable" and nothing
else is set. -/
def undelivPayload : Payload :=
  { emptyPayload with email_deliverability := ⟨none, none, none, some "undeliverable"⟩ }

/-- Payload reporting exactly 15 breaches and nothing else. -/
def breach15Payload : Payload :=
  { emptyPayload with email_breaches := ⟨some 15, none⟩ }

/-- Payload with a medium address risk tier and 3 breaches: both the
"Medium Risk Classification" rule and the "Data Breaches" rule fire. -/
def mediumBreachPayload : Payload :=
  { emptyPayload with email_risk := ⟨some "medium", none⟩,
                      email_breaches := ⟨some 3, none⟩ }

/-- Payload for the address user@tempmail.com with no other fields. -/
def tempmailPayload : Payload :=
  { emptyPayload with email_address := some "user@tempmail.com" }

/-- Payload for user@tempmail.com whose deliverability status is
"undeliverable". -/
def tempmailUndelivPayload : Payload :=
  { emptyPayload with email_address := some "user@tempmail.com",
                      email_deliverability := ⟨none, none, none, some "undeliverable"⟩ }

/-- Payload carrying an explicit quality score of 0.9 and nothing else. -/
def qualityPayload : Payload :=
  { emptyPayload with email_quality := ⟨some (some (9/10)), none, none, none, none, none, none, none⟩ }

/-- Payload supplying a domain age of 4000 days. -/
def agedPayload : Payload :=
  { emptyPayload with email_domain := ⟨some 4000⟩ }

/-- Payload supplying an explicit domain age of 0 days. -/
def ageZeroPayload : Payload :=
  { emptyPayload with email_domain := ⟨some 0⟩ }

/-- The factor produced by the breach rule for a breach count of 15. -/
def breach15Factor : RiskFactor :=
  ⟨.danger, "Data Breaches",
   "This email was found in 15 known data breaches, indicating significant exposure. Breached emails are often targeted for spam, phishing, and credential stuffing attacks."⟩

/-- The factor the suspicious-domain rule produces for the address
user@tempmail.com: the first matching word of the list is "temp". -/
def suspiciousTempmailFactor : RiskFactor :=
  ⟨.danger, "Suspicious Domain",
   "The domain \"tempmail.com\" contains \"temp\" which is commonly associated with temporary or fake email services. These domains are often used to create throwaway accounts."⟩

/-! ### Helper lemmas -/

/-- The clamp `min 100 (max 0 _)` forces the score into [0,100]. -/
theorem calculateScore_bounds (d : Payload) (fs : List RiskFactor) (u : Bool) :
    0 ≤ calculateScore d fs u ∧ calculateScore d fs u ≤ 100 := by
  unfold calculateScore
  exact ⟨le_min (by norm_num) (le_max_left 0 _), min_le_left _ _⟩

/-- The penalty loop of `calculateScore` subtracts the sum of the
per-factor penalties. -/
theorem foldl_factorPenalty (l : List RiskFactor) (s : Int) :
    l.foldl (fun a f => a - factorPenalty f) s = s - (l.map factorPenalty).sum := by
  induction l generalizing s with
  | nil => simp
  | cons f t ih =>
      rw [List.foldl_cons, ih, List.map_cons, List.sum_cons]
      ring_nf

/-- A deducted conditional as a conditional deduction. -/
theorem ite_sub (c : Prop) [Decidable c] (s a : Int) :
    (if c then s - a else s) = s - (if c then a else 0) := by
  by_cases h : c <;> simp [h]

/-- An added conditional as a conditional addition. -/
theorem ite_add (c : Prop) [Decidable c] (s a : Int) :
    (if c then s + a else s) = s + (if c then a else 0) := by
  by_cases h : c <;> simp [h]

/-- The spec-side per-factor penalty coincides with the source's. -/
theorem specFactorPenalty_eq (f : RiskFactor) : specFactorPenalty f = factorPenalty f := by
  cases f with
  | mk t l d => cases t <;> rfl

/-- A sublist of the right part of an append is a sublist of the whole. -/
theorem sublist_append_extend {α : Type} {l r : List α} (a : List α) (h : List.Sublist l r) :
    List.Sublist l (a ++ r) :=
  h.trans (List.sublist_append_right a r)

/-! ### Claims -/

/-- C1: for every payload and every risk-factor list (and either value of
the SMTP-unverifiable flag), `calculateScore` returns an integer in the
closed range [0,100], even under maximal stacked penalties. -/
theorem claim1_score_in_range (d : Payload) (fs : List RiskFactor) (u : Bool) :
    0 ≤ calculateScore d fs u ∧ calculateScore d fs u ≤ 100 :=
  calculateScore_bounds d fs u

/-- C3: whenever the payload's deliverability status is "undeliverable",
`determineStatus` returns "invalid", regardless of the score and of the
risk factors (the check is performed first and short-circuits). -/
theorem claim3_undeliverable_invalid (score : Int) (d : Payload) (fs : List RiskFactor)
    (h : d.email_deliverability.status = some "undeliverable") :
    determineStatus score d fs = .invalid := by
  unfold determineStatus
  rw [if_pos h]

/-- C3 witness: at score 95 with no factors, an undeliverable payload is
still "invalid". -/
theorem claim3_witness :
    determineStatus 95 undelivPayload [] = .invalid :=
  claim3_undeliverable_invalid 95 undelivPayload [] rfl

/-- C4: `determineRiskLevel` is a pure, monotonic step function of the
score alone: score ≥ 70 yields Low, 40 ≤ score < 70 yields Medium,
score < 40 yields High; monotonicity is expressed by `levelRank`; the four
boundary values of the claim are included. -/
theorem claim4_risk_level_step :
    (∀ s : Int,
      (70 ≤ s → determineRiskLevel s = .low) ∧
      (40 ≤ s ∧ s < 70 → determineRiskLevel s = .medium) ∧
      (s < 40 → determineRiskLevel s = .high)) ∧
    (∀ s t : Int, s ≤ t → levelRank (determineRiskLevel t) ≤ levelRank (determineRiskLevel s)) ∧
    determineRiskLevel 70 = .low ∧ determineRiskLevel 69 = .medium ∧
    determineRiskLevel 40 = .medium ∧ determineRiskLevel 39 = .high := by
  refine ⟨fun s => ⟨?_, ?_, ?_⟩, fun s t hst => ?_, by decide, by decide, by decide, by decide⟩
  · intro h
    unfold determineRiskLevel
    rw [if_pos (by omega : s ≥ 70)]
  · intro h
    unfold determineRiskLevel
    rw [if_neg (by omega : ¬s ≥ 70), if_pos (by omega : s ≥ 40)]
  · intro h
    unfold determineRiskLevel
    rw [if_neg (by omega : ¬s ≥ 70), if_neg (by omega : ¬s ≥ 40)]
  · unfold determineRiskLevel
    split_ifs <;> simp [levelRank] <;> omega

/-- C4 witness: the step function evaluated through the theorem at the
concrete scores 100 and 0. -/
theorem claim4_witness :
    determineRiskLevel 100 = .low ∧ determineRiskLevel 0 = .high :=
  ⟨(claim4_risk_level_step.1 100).1 (by norm_num),
   (claim4_risk_level_step.1 0).2.2 (by norm_num)⟩

/-- C10: when the payload carries an explicit quality score, the +10
major-provider SMTP-unverifiable adjustment is never applied: the +10 sits
inside the no-quality-score branch, so the score with the flag set equals
the score with the flag clear. -/
theorem claim10_quality_score_ignores_smtp_flag (d : Payload) (fs : List RiskFactor)
    (q : Rat) (h : d.email_quality.score = some (some q)) :
    calculateScore d fs true = calculateScore d fs false := by
  unfold calculateScore rawScore
  rw [h]

/-- C10 witness: with quality score 0.9 present, the flag makes no
difference. -/
theorem claim10_witness :
    calculateScore qualityPayload [] true = calculateScore qualityPayload [] false :=
  claim10_quality_score_ignores_smtp_flag qualityPayload [] (9/10) rfl

/-- C2: `calculateScore` equals the §4.2 reference definition
`specCalculateScore` for every payload, every risk-factor list and either
value of the SMTP-unverifiable flag: base 50, quality override to
`round(quality*100)`, else +15 per explicitly-true validity flag and +10
for the major-provider SMTP-unverifiable condition; then the eight
additive penalties regardless of the override, plus the per-factor
penalties; clamped to [0,100]. -/
theorem claim2_score_matches_reference (d : Payload) (fs : List RiskFactor) (u : Bool) :
    calculateScore d fs u = specCalculateScore d fs u := by
  have hfun : specFactorPenalty = factorPenalty := funext specFactorPenalty_eq
  unfold calculateScore specCalculateScore rawScore
  rw [foldl_factorPenalty, hfun]
  rcases hq : d.email_quality.score with _ | (_ | q) <;>
    simp only [hq] <;>
    simp only [ite_sub, ite_add] <;>
    ring_nf

/-- Inserting one factor into the list passed to `rawScore` lowers the
raw (pre-clamp) score by exactly that factor's penalty. -/
theorem rawScore_insert (p : Payload) (f : RiskFactor) (l1 l2 : List RiskFactor) (u : Bool) :
    rawScore p (l1 ++ f :: l2) u = rawScore p (l1 ++ l2) u - factorPenalty f := by
  simp only [rawScore]
  rw [foldl_factorPenalty, foldl_factorPenalty]
  simp only [List.map_append, List.sum_append, List.map_cons, List.sum_cons]
  ring

/-- C5 counterexample: on the payload reporting 15 breaches, no factor of
the produced list is a danger "Data Breaches" factor carrying a per-factor
penalty of 50 — the claim's "exactly 50" fails (the code charges 30 for a
danger factor not labelled "Suspicious Domain"). -/
theorem claim5_counterexample :
    ¬ ∃ f ∈ detectRiskFactors breach15Payload,
        f.type = .danger ∧ f.label = "Data Breaches" ∧ factorPenalty f = 50 := by
  decide

/-- C5 amended: a payload with breach count 15 yields a danger-severity
"Data Breaches" factor whose description states "15" and "significant
exposure", and `calculateScore` penalizes that factor by exactly 30 (not
50): inserting it anywhere in the factor list lowers the raw score by
30. -/
theorem claim5_amended (p : Payload)
    (h : p.email_breaches.total_breaches = some 15) :
    ∃ f ∈ detectRiskFactors p,
      f.type = .danger ∧ f.label = "Data Breaches" ∧
      (∃ s t, f.description = s ++ "15" ++ t) ∧
      (∃ s t, f.description = s ++ "significant exposure" ++ t) ∧
      factorPenalty f = 30 ∧
      (∀ l1 l2 u, rawScore p (l1 ++ f :: l2) u = rawScore p (l1 ++ l2) u - 30) := by
  have hb : breachFactors p = [breach15Factor] := by
    unfold breachFactors breachCountOf
    rw [h]
    rfl
  refine ⟨breach15Factor, ?_, rfl, rfl, ?_, ?_, rfl, ?_⟩
  · unfold detectRiskFactors
    rw [hb]
    simp [List.mem_append]
  · exact ⟨"This email was found in ",
      " known data breaches, indicating significant exposure. Breached emails are often targeted for spam, phishing, and credential stuffing attacks.",
      by decide⟩
  · exact ⟨"This email was found in 15 known data breaches, indicating ",
      ". Breached emails are often targeted for spam, phishing, and credential stuffing attacks.",
      by decide⟩
  · intro l1 l2 u
    rw [rawScore_insert]
    rfl

/-- C5 witness: the amended claim instantiated on the concrete payload
with 15 breaches. -/
theorem claim5_witness :
    ∃ f ∈ detectRiskFactors breach15Payload,
      f.type = .danger ∧ f.label = "Data Breaches" ∧
      (∃ s t, f.description = s ++ "15" ++ t) ∧
      (∃ s t, f.description = s ++ "significant exposure" ++ t) ∧
      factorPenalty f = 30 ∧
      (∀ l1 l2 u, rawScore breach15Payload (l1 ++ f :: l2) u = rawScore breach15Payload (l1 ++ l2) u - 30) :=
  claim5_amended breach15Payload rfl

/-- When the payload reports `n > 0` breaches, the breach rule fires with
exactly the factor `breachFactorFor n`. -/
theorem breachFactors_fires (p : Payload) (n : Nat)
    (hb : p.email_breaches.total_breaches = some n) (hn : 0 < n) :
    breachFactors p = [breachFactorFor n] := by
  unfold breachFactors breachCountOf
  rw [hb, Option.getD_some, if_pos hn]

/-- C6 counterexample: on a payload where both the medium-risk rule and
the breach rule fire (medium tier, 3 breaches), the "Medium Risk
Classification" factor does not appear before the "Data Breaches" factor:
the code emits the medium-risk factor last, not at its §4.1 table
position. -/
theorem claim6_counterexample :
    ¬ ((detectRiskFactors mediumBreachPayload).findIdx
         (fun f => f.label == "Medium Risk Classification") <
       (detectRiskFactors mediumBreachPayload).findIdx
         (fun f => f.label == "Data Breaches")) := by
  decide

/-- C6 amended: the factor list follows the source's rule order, in which
the medium-risk check runs last; hence for every payload where both rules
fire, the "Data Breaches" factor appears before the "Medium Risk
Classification" factor (stated as an ordered sublist). -/
theorem claim6_amended (p : Payload) (n : Nat)
    (hm : p.email_risk.address_risk_status = some "medium")
    (hb : p.email_breaches.total_breaches = some n) (hn : 0 < n) :
    ∃ fdb fmr, fdb.label = "Data Breaches" ∧ fmr.label = "Medium Risk Classification" ∧
      List.Sublist [fdb, fmr] (detectRiskFactors p) := by
  have h5 : breachFactors p = [breachFactorFor n] := breachFactors_fires p n hb hn
  have h11 : mediumRiskFactors p = [mediumRiskFactor] := by
    unfold mediumRiskFactors
    rw [if_pos hm]
  refine ⟨breachFactorFor n, mediumRiskFactor, rfl, rfl, ?_⟩
  unfold detectRiskFactors
  rw [h5, h11]
  simp only [List.append_assoc, List.singleton_append]
  apply sublist_append_extend
  apply sublist_append_extend
  apply sublist_append_extend
  apply sublist_append_extend
  apply List.Sublist.cons₂
  apply sublist_append_extend
  apply sublist_append_extend
  apply sublist_append_extend
  apply sublist_append_extend
  apply sublist_append_extend
  exact List.Sublist.refl _

/-- C6 witness: the amended ordering on the concrete payload with medium
tier and 3 breaches. -/
theorem claim6_witness :
    ∃ fdb fmr, fdb.label = "Data Breaches" ∧ fmr.label = "Medium Risk Classification" ∧
      List.Sublist [fdb, fmr] (detectRiskFactors mediumBreachPayload) :=
  claim6_amended mediumBreachPayload 3 rfl rfl (by norm_num)

/-- C7 counterexample: for the payload user@tempmail.com whose
deliverability status is "undeliverable", the pipeline's status is not
"risky" (it is "invalid"), so "risky regardless of the payload's other
fields" fails. -/
theorem claim7_counterexample :
    ¬ ((buildResult "user@tempmail.com" tempmailUndelivPayload).status = .risky) := by
  decide

/-- The suspicious-domain rule only reads the email address, so two
payloads with the same address produce the same factors for it. -/
theorem suspiciousDomainFactors_congr (p q : Payload)
    (h : p.email_address = q.email_address) :
    suspiciousDomainFactors p = suspiciousDomainFactors q := by
  simp only [suspiciousDomainFactors, domainNameOf, domainOf, emailOf, h]

/-- C7 amended: every payload whose email address is user@tempmail.com
yields a danger "Suspicious Domain" factor, and the status is "risky" for
every score — unless the deliverability status is "undeliverable", which
is checked first and forces "invalid". -/
theorem claim7_amended (p : Payload)
    (h : p.email_address = some "user@tempmail.com") :
    (∃ f ∈ detectRiskFactors p, f.type = .danger ∧ f.label = "Suspicious Domain") ∧
    (p.email_deliverability.status ≠ some "undeliverable" →
      ∀ s, determineStatus s p (detectRiskFactors p) = .risky) := by
  have hsd : suspiciousDomainFactors p = [suspiciousTempmailFactor] := by
    rw [suspiciousDomainFactors_congr p tempmailPayload (by rw [h]; rfl)]
    decide
  have hmem : suspiciousTempmailFactor ∈ detectRiskFactors p := by
    unfold detectRiskFactors
    rw [hsd]
    simp [List.mem_append]
  refine ⟨⟨suspiciousTempmailFactor, hmem, rfl, rfl⟩, ?_⟩
  intro hne s
  have hany : (detectRiskFactors p).any (fun f => f.type == .danger) = true :=
    List.any_eq_true.mpr ⟨suspiciousTempmailFactor, hmem, by decide⟩
  simp only [determineStatus]
  rw [if_neg hne, if_pos hany]

/-- C7 witness: the amended claim on the concrete payload for
user@tempmail.com with no other fields set. -/
theorem claim7_witness :
    (∃ f ∈ detectRiskFactors tempmailPayload, f.type = .danger ∧ f.label = "Suspicious Domain") ∧
    determineStatus 100 tempmailPayload (detectRiskFactors tempmailPayload) = .risky :=
  ⟨(claim7_amended tempmailPayload rfl).1,
   (claim7_amended tempmailPayload rfl).2 (by decide) 100⟩

/-- C8: the scoring engine is total.  Every stage is a total Lean function
(each optional-chained access of the source is modelled by `Option`, so no
access can throw), the assembled `VerificationResult` always carries a
score in [0,100], and on the payload with every optional field absent the
pipeline produces the fully-populated result built from the per-field
fallbacks: base score 50, status "risky", all detail booleans false,
domain age "Unknown", risk level Medium, no factors, no breaches, null
provider name. -/
theorem claim8_engine_total :
    (∀ e p, 0 ≤ (buildResult e p).score ∧ (buildResult e p).score ≤ 100) ∧
    buildResult "" emptyPayload =
      { score := 50, status := .risky, syntaxValid := false, mxRecords := false,
        disposable := false, smtpValid := false, smtpUnverifiable := false,
        spamTrap := false, domainAge := "Unknown", riskLevel := .medium,
        riskFactors := [], breaches := [], providerName := none } := by
  constructor
  · intro e p
    exact calculateScore_bounds p (detectRiskFactors p) (smtpUnverifiableOf e p)
  · decide

/-- C9 counterexample: the payload that supplies a domain age of 0 days is
not bucketed to "< 1 year": the source's truthiness test `if
(domainAgeDays)` treats the supplied 0 as absent and falls back to
"Unknown". -/
theorem claim9_counterexample :
    estimateDomainAge ageZeroPayload ≠ "< 1 year" := by
  decide

/-- C9 amended: for every payload that supplies a positive domain age in
days, `estimateDomainAge` buckets it by floor(days/365): ≥3650 days is
"> 10 years", 5–9 whole years "5-10 years", 2–4 whole years "2-5 years",
1 whole year "1-2 years", otherwise "< 1 year"; for every payload whose
age is absent — or supplied as 0, which the truthiness test treats as
absent — the fallback is "> 10 years" when free-email is true, "< 1 month"
when disposable is true, and "Unknown" otherwise. -/
theorem claim9_amended :
    (∀ p d, p.email_domain.domain_age = some d → 0 < d →
      ((3650 ≤ d → estimateDomainAge p = "> 10 years") ∧
       (1825 ≤ d ∧ d < 3650 → estimateDomainAge p = "5-10 years") ∧
       (730 ≤ d ∧ d < 1825 → estimateDomainAge p = "2-5 years") ∧
       (365 ≤ d ∧ d < 730 → estimateDomainAge p = "1-2 years") ∧
       (d < 365 → estimateDomainAge p = "< 1 year"))) ∧
    (∀ p, p.email_domain.domain_age = none ∨ p.email_domain.domain_age = some 0 →
      estimateDomainAge p =
        (if p.email_quality.is_free_email = some true then "> 10 years"
         else if p.email_quality.is_disposable = some true then "< 1 month"
         else "Unknown")) := by
  constructor
  · intro p d h hd
    simp only [estimateDomainAge, h]
    rw [if_pos (by omega : d ≠ 0)]
    refine ⟨fun h1 => ?_, fun h1 => ?_, fun h1 => ?_, fun h1 => ?_, fun h1 => ?_⟩ <;>
      split_ifs <;> first | rfl | omega
  · intro p hor
    rcases hor with h | h <;>
      · unfold estimateDomainAge
        rw [h]
        rfl

/-- C9 witness: the amended claim at a supplied age of 4000 days ("> 10
years") and at the explicit age 0 ("Unknown"). -/
theorem claim9_witness :
    estimateDomainAge agedPayload = "> 10 years" ∧
    estimateDomainAge ageZeroPayload = "Unknown" := by
  constructor
  · exact (claim9_amended.1 agedPayload 4000 rfl (by norm_num)).1 (by norm_num)
  · have := claim9_amended.2 ageZeroPayload (Or.inr rfl)
    simpa using this

end SafeCheck
